import Mathlib

set_option maxRecDepth 8000

/-!
Verification of `ai_news_agent.py` (Daily-AI-News).

The script has one linear flow: extract the first text block from a model
response, split it into lines, split each line on `|` into
(headline, summary, url), render an HTML `<li>` per non-blank line, and
send the digest over SMTP.  Below is a shallow embedding of that flow:
Python strings are Lean `String`s, `str.strip` / `str.lstrip` / single-char
`str.split` are re-implemented over `List Char` with Python's semantics,
the fallible indexing inside the `try` block is an `Option` computation,
and the SMTP session is a straight-line program over an oracle that says
whether each network step succeeds.
-/

namespace AiNewsAgent

/-- Python `str.isspace` characters restricted to ASCII: the whitespace
that `str.strip()` with no argument removes. -/
def pyIsSpace (c : Char) : Bool :=
  c == ' ' || c == '\t' || c == '\n' || c == '\r' || c == '\x0b' || c == '\x0c'

/-- Strip `pyIsSpace` characters from both ends of a character list:
the semantics of Python `str.strip()`. -/
def pyStripList (l : List Char) : List Char :=
  ((l.dropWhile pyIsSpace).reverse.dropWhile pyIsSpace).reverse

/-- Python `str.strip()` on a `String`. -/
def pyStrip (s : String) : String :=
  ⟨pyStripList s.data⟩

/-- Drop leading characters that belong to `cs`: the semantics of Python
`str.lstrip(cs)`. -/
def pyLStripList (cs : List Char) (l : List Char) : List Char :=
  l.dropWhile (fun c => cs.contains c)

/-- Python `str.lstrip(cs)` on a `String`. -/
def pyLStrip (cs : List Char) (s : String) : String :=
  ⟨pyLStripList cs s.data⟩

/-- Split a character list on a separator character, keeping empty
segments; the empty list yields one empty segment.  This is the
semantics of Python `str.split(sep)` for a one-character `sep`. -/
def pySplitList (c : Char) : List Char → List (List Char)
  | [] => [[]]
  | x :: xs =>
      if x = c then [] :: pySplitList c xs
      else
        match pySplitList c xs with
        | [] => [[x]]
        | y :: ys => (x :: y) :: ys

/-- Python `s.split(c)` for a one-character separator, on `String`s. -/
def pySplit (c : Char) (s : String) : List String :=
  (pySplitList c s.data).map String.mk

/-- The character set `"0123456789. "` passed to `lstrip` at line 73 of
`ai_news_agent.py`. -/
def numberDotSpace : List Char :=
  ['0', '1', '2', '3', '4', '5', '6', '7', '8', '9', '.', ' ']

/-! ## The per-line formatter (lines 65-85 of `ai_news_agent.py`) -/

/-- The list-item template of the `except` fallback at line 85:
`<li style="margin-bottom:16px;">{line}</li>`. -/
def rawLi (line : String) : String :=
  "<li style=\"margin-bottom:16px;\">" ++ line ++ "</li>"

/-- The list-item template of the `if url:` branch at lines 76-81:
anchor-wrapped headline followed by the summary in a span. -/
def anchorLi (url headline summary : String) : String :=
  "<li style=\"margin-bottom:16px;\">" ++
  "<a href=\"" ++ url ++
  "\" style=\"font-size:16px;font-weight:bold;color:#1a0dab;text-decoration:none;\">" ++
  headline ++ "</a><br>" ++
  "<span style=\"color:#555;font-size:14px;\">" ++ summary ++ "</span>" ++
  "</li>"

/-- The list-item template of the `else` branch at line 83: bold headline,
no anchor. -/
def boldLi (headline summary : String) : String :=
  "<li style=\"margin-bottom:16px;\"><strong>" ++ headline ++
  "</strong><br><span style=\"color:#555;font-size:14px;\">" ++ summary ++
  "</span></li>"

/-- `parts = line.split("|")` at line 67. -/
def lineParts (line : String) : List String :=
  pySplit '|' line

/-- The body of the `try` block at lines 66-83, with every indexed list
access (`parts[0]`, `parts[1]`, `parts[2]`) modelled as a fallible
`Option` lookup exactly where Python could raise `IndexError`; the
length guards of lines 69-70 are kept as written. -/
def tryFormatLine (line : String) : Option String :=
  let parts := lineParts line
  (parts[0]?).bind fun p0 =>
    let headline_part := pyStrip p0
    (if 1 < parts.length then (parts[1]?).map pyStrip else some "").bind
      fun summary =>
        (if 2 < parts.length then (parts[2]?).map pyStrip else some "").bind
          fun url =>
            let headline := pyStrip (pyLStrip numberDotSpace headline_part)
            some (if url ≠ "" then anchorLi url headline summary
                  else boldLi headline summary)

/-- The `headline` value of line 73 (`parts[0].strip().lstrip("0123456789. ").strip()`),
as a total function of the line. -/
def headlineOf (line : String) : String :=
  pyStrip (pyLStrip numberDotSpace (pyStrip ((lineParts line).headD "")))

/-- The `summary` value of line 69 (`parts[1].strip() if len(parts) > 1 else ""`). -/
def summaryOf (line : String) : String :=
  if 1 < (lineParts line).length then pyStrip ((lineParts line).getD 1 "") else ""

/-- The `url` value of line 70 (`parts[2].strip() if len(parts) > 2 else ""`). -/
def urlOf (line : String) : String :=
  if 2 < (lineParts line).length then pyStrip ((lineParts line).getD 2 "") else ""

/-- The value the `try` block appends for a line, as a total function:
the anchor branch when `url` is truthy, the bold branch otherwise. -/
def formatLine (line : String) : String :=
  if urlOf line ≠ "" then anchorLi (urlOf line) (headlineOf line) (summaryOf line)
  else boldLi (headlineOf line) (summaryOf line)

/-- One iteration of the `try`/`except` at lines 65-85: the formatted item
when the `try` body succeeds, the raw line otherwise. -/
def processLine (line : String) : String :=
  match tryFormatLine line with
  | some s => s
  | none => rawLi line

/-- The `html_lines` list built by the loop at lines 60-85: strip each
line of `plain_text.split("\n")`, skip blank lines, append one processed
item per remaining line. -/
def htmlLines (plainText : String) : List String :=
  (pySplit '\n' plainText).foldl
    (fun acc raw =>
      let line := pyStrip raw
      if line = "" then acc else acc ++ [processLine line])
    []

/-! ## The rest of `fetch_ai_news` (lines 52-102) -/

/-- The literal HTML of the f-string at lines 88-100 up to `{today_str}`. -/
def htmlHead : String :=
  "\n    <html><body style=\"font-family:Arial,sans-serif;max-width:620px;margin:auto;padding:24px;\">\n      <h2 style=\"color:#222;border-bottom:2px solid #e0e0e0;padding-bottom:8px;\">\n        🤖 Daily AI News — "

/-- The literal HTML between `{today_str}` and the joined `html_lines`. -/
def htmlMid : String :=
  "\n      </h2>\n      <ul style=\"padding-left:20px;\">\n        "

/-- The literal HTML after the joined `html_lines`. -/
def htmlTail : String :=
  "\n      </ul>\n      <p style=\"color:#aaa;font-size:12px;margin-top:32px;\">\n        Powered by Claude AI • Unsubscribe by disabling the GitHub Actions workflow\n      </p>\n    </body></html>\n    "

/-- The `html` value of lines 88-100: header, date, the joined list items,
footer. -/
def fullHtml (todayStr plainText : String) : String :=
  htmlHead ++ todayStr ++ htmlMid ++ String.join (htmlLines plainText) ++ htmlTail

/-- One block of `response.content`: the two attributes the script reads
(`block.type`, `block.text`). -/
structure ContentBlock where
  type : String
  text : String
deriving DecidableEq

/-- The loop at lines 53-57: `plain_text` is the stripped text of the first
block whose `type` is `"text"`, or `""` when no such block exists. -/
def extractPlainText : List ContentBlock → String
  | [] => ""
  | b :: bs => if b.type = "text" then pyStrip b.text else extractPlainText bs

/-- The pure part of `fetch_ai_news` (lines 52-102), as a function of the
model response and of today's date string: the `(plain_text, html)` pair it
returns. -/
def fetchAiNews (resp : List ContentBlock) (todayStr : String) : String × String :=
  let plain := extractPlainText resp
  (plain, fullHtml todayStr plain)

/-! ## `send_email` (lines 105-122) -/

instance : DecidableEq (Except String Unit) := fun a b =>
  match a, b with
  | .error e, .error f =>
      if h : e = f then isTrue (by rw [h]) else isFalse (by simp [h])
  | .error _, .ok _ => isFalse (by simp)
  | .ok _, .error _ => isFalse (by simp)
  | .ok u, .ok v => isTrue (by cases u; cases v; rfl)

/-- Oracle for the three fallible SMTP steps of `send_email`: whether
`SMTP_SSL(...)` (the connection), `server.login(...)` and
`server.sendmail(...)` succeed, and with which exception they fail. -/
structure SmtpEnv where
  connectResult : Except String Unit
  loginResult : Except String Unit
  sendmailResult : Except String Unit
deriving DecidableEq

/-- How many times `send_email` invoked each SMTP step during a run. -/
structure SmtpTrace where
  connectCalls : Nat
  loginCalls : Nat
  sendmailCalls : Nat
deriving DecidableEq

/-- The `with smtplib.SMTP_SSL(...)` block at lines 118-120 of
`send_email`: connect, then login, then sendmail, in order, with no
`try`/`except` anywhere in the function — the first failing step aborts
the run with its exception, the later steps are not attempted, and no
step is invoked twice. -/
def sendEmail (smtp : SmtpEnv) : Except String Unit × SmtpTrace :=
  match smtp.connectResult with
  | .error e => (.error e, ⟨1, 0, 0⟩)
  | .ok _ =>
      match smtp.loginResult with
      | .error e => (.error e, ⟨1, 1, 0⟩)
      | .ok _ =>
          match smtp.sendmailResult with
          | .error e => (.error e, ⟨1, 1, 1⟩)
          | .ok _ => (.ok (), ⟨1, 1, 1⟩)

/-! ## The whole run (configuration lines 20-23 and `main`, lines 125-129) -/

/-- Everything observable a run produces: the four configuration values the
module reads from the environment at lines 20-23, the digest bodies, and
the SMTP outcome. -/
structure RunOutput where
  apiKey : Option String
  gmailAddress : Option String
  gmailAppPassword : Option String
  toEmail : Option String
  plainText : String
  html : String
  smtpResult : Except String Unit
  smtpTrace : SmtpTrace
deriving DecidableEq

/-- The program run as a function of the process environment (a map from
variable name to optional value), the model response, today's date string
and the SMTP oracle.  `os.environ.get` is called exactly four times, at
lines 20-23, with the four literal keys below; no other key is ever
looked up. -/
def runMain (env : String → Option String) (resp : List ContentBlock)
    (todayStr : String) (smtp : SmtpEnv) : RunOutput :=
  let plain := extractPlainText resp
  { apiKey := env "ANTHROPIC_API_KEY"
    gmailAddress := env "GMAIL_ADDRESS"
    gmailAppPassword := env "GMAIL_APP_PASSWORD"
    toEmail := env "TO_EMAIL"
    plainText := plain
    html := fullHtml todayStr plain
    smtpResult := (sendEmail smtp).1
    smtpTrace := (sendEmail smtp).2 }

/-! ## The parser seen as a triple extractor, for the refinement claim -/

/-- The `(headline, summary, url)` triples the loop at lines 60-85
extracts, in loop form: one triple per line that is non-blank after
stripping. -/
def codeParse (t : String) : List (String × String × String) :=
  (pySplit '\n' t).foldl
    (fun acc raw =>
      let line := pyStrip raw
      if line = "" then acc
      else acc ++ [(headlineOf line, summaryOf line, urlOf line)])
    []

/-- The headline as claim C5 words it: the first pipe-separated field with
leading digits, dots and spaces stripped (and nothing else). -/
def claimHeadlineOf (line : String) : String :=
  pyLStrip numberDotSpace ((lineParts line).headD "")

/-- The summary as claim C5 words it: the stripped second field, or the
empty string if absent. -/
def claimSummaryOf (line : String) : String :=
  pyStrip ((lineParts line).getD 1 "")

/-- The URL as claim C5 words it: the stripped third field, or the empty
string if absent; fields beyond the third are discarded. -/
def claimUrlOf (line : String) : String :=
  pyStrip ((lineParts line).getD 2 "")

/-- The parser exactly as claim C5 describes it: newline split, blank
lines skipped after stripping, pipe split, the three fields as worded in
the claim. -/
def claimParse (t : String) : List (String × String × String) :=
  (((pySplit '\n' t).map pyStrip).filter (fun l => l != "")).map
    (fun l => (claimHeadlineOf l, claimSummaryOf l, claimUrlOf l))

/-- The parser as the amended claim describes it: identical to
`claimParse` except that the headline is the first field stripped of
surrounding whitespace, then stripped of leading digits, dots and spaces,
then stripped of whitespace again. -/
def amendedParse (t : String) : List (String × String × String) :=
  (((pySplit '\n' t).map pyStrip).filter (fun l => l != "")).map
    (fun l => (pyStrip (pyLStrip numberDotSpace (pyStrip ((lineParts l).headD ""))),
               pyStrip ((lineParts l).getD 1 ""),
               pyStrip ((lineParts l).getD 2 "")))

/-! ## Concrete inputs used by counterexamples and witnesses -/

/-- A well-formed model response with six news lines: one more than the
five the prompt asks for. -/
def sixItemResponse : String :=
  "1. a | s | u\n2. b | s | u\n3. c | s | u\n4. d | s | u\n5. e | s | u\n6. f | s | u"

/-- A line whose first field carries a tab before the first pipe. -/
def tabbedLine : String := "1. abc \t| s | u"

/-- An SMTP oracle on which every step succeeds. -/
def smtpOk : SmtpEnv := ⟨Except.ok (), Except.ok (), Except.ok ()⟩

/-- An SMTP oracle on which `server.login` raises. -/
def smtpLoginFail : SmtpEnv := ⟨Except.ok (), Except.error "auth", Except.ok ()⟩

/-- A process environment defining exactly the four variables the script
reads. -/
def envA : String → Option String := fun k =>
  if k = "ANTHROPIC_API_KEY" then some "key" else
  if k = "GMAIL_ADDRESS" then some "sender@gmail.com" else
  if k = "GMAIL_APP_PASSWORD" then some "pw" else
  if k = "TO_EMAIL" then some "to@gmail.com" else none

/-- A process environment agreeing with `envA` on the four variables the
script reads but differing elsewhere (`HOME`). -/
def envB : String → Option String := fun k =>
  if k = "ANTHROPIC_API_KEY" then some "key" else
  if k = "GMAIL_ADDRESS" then some "sender@gmail.com" else
  if k = "GMAIL_APP_PASSWORD" then some "pw" else
  if k = "TO_EMAIL" then some "to@gmail.com" else
  if k = "HOME" then some "/home/user" else none

/-- One string occurs inside another: `s` is `p ++ sub ++ q` for some
context `p`, `q`.  Used to state that the renderer embeds the parsed
fields character-for-character, with no escaping. -/
def strContains (s sub : String) : Prop := ∃ p q, s = p ++ (sub ++ q)

/-! ## Sanity checks of the embedding on concrete lines -/

example : pySplit '|' "1. A | B | C" = ["1. A ", " B ", " C"] := by decide

example : pyStrip "  a b\t" = "a b" := by decide

example : pyLStrip numberDotSpace "12. 3 news" = "news" := by decide

example :
    processLine "1. A | B | C" = anchorLi "C" "A" "B" := by decide

example :
    processLine "1. A | B" = boldLi "A" "B" := by decide

example :
    processLine "hello" = boldLi "hello" "" := by decide

example :
    htmlLines "1. A | B | C\n\n2. D | E" =
      [anchorLi "C" "A" "B", boldLi "D" "E"] := by decide

/-! ## Basic facts about the string primitives -/

theorem pySplitList_ne_nil (c : Char) (l : List Char) : pySplitList c l ≠ [] := by
  induction l with
  | nil => simp [pySplitList]
  | cons x xs ih =>
    simp only [pySplitList]
    split
    · simp
    · rcases h : pySplitList c xs with _ | ⟨y, ys⟩
      · exact absurd h ih
      · simp

theorem lineParts_ne_nil (line : String) : lineParts line ≠ [] := by
  simp [lineParts, pySplit, List.map_eq_nil_iff, pySplitList_ne_nil]

theorem pySplitList_of_not_mem (c : Char) (l : List Char) (h : c ∉ l) :
    pySplitList c l = [l] := by
  induction l with
  | nil => rfl
  | cons x xs ih =>
    simp only [List.mem_cons, not_or] at h
    simp only [pySplitList, if_neg (Ne.symm h.1)]
    rw [ih h.2]

theorem pySplitList_append (c : Char) (a b : List Char) (h : c ∉ a) :
    pySplitList c (a ++ c :: b) = a :: pySplitList c b := by
  induction a with
  | nil => simp [pySplitList]
  | cons x xs ih =>
    simp only [List.mem_cons, not_or] at h
    simp only [List.cons_append, pySplitList, if_neg (Ne.symm h.1), List.append_eq]
    rw [ih h.2]

theorem pyStripList_cons_space (l : List Char) :
    pyStripList (' ' :: l) = pyStripList l := by
  simp [pyStripList, List.dropWhile_cons, pyIsSpace]

theorem pyStripList_append_space (l : List Char) :
    pyStripList (l ++ [' ']) = pyStripList l := by
  unfold pyStripList
  rw [List.dropWhile_append]
  by_cases h : (List.dropWhile pyIsSpace l).isEmpty
  · rw [if_pos h]
    rw [List.isEmpty_iff] at h
    rw [h]
    simp [List.dropWhile_cons, pyIsSpace]
  · rw [if_neg h]
    rw [List.reverse_append]
    simp [List.dropWhile_cons, pyIsSpace]

theorem of_pyStripList_eq_self (l : List Char) (h : pyStripList l = l) :
    l.dropWhile pyIsSpace = l ∧ l.reverse.dropWhile pyIsSpace = l.reverse := by
  have hs1 : (l.dropWhile pyIsSpace) <:+ l := List.dropWhile_suffix pyIsSpace
  have hs2 : ((l.dropWhile pyIsSpace).reverse.dropWhile pyIsSpace) <:+
      (l.dropWhile pyIsSpace).reverse := List.dropWhile_suffix pyIsSpace
  have hlen : ((l.dropWhile pyIsSpace).reverse.dropWhile pyIsSpace).length = l.length := by
    have h' := congrArg List.length h
    simp only [pyStripList, List.length_reverse] at h'
    exact h'
  have hle2 := hs2.length_le
  have hle1 := hs1.length_le
  have key : l.length ≤ (l.dropWhile pyIsSpace).length := by
    calc l.length = ((l.dropWhile pyIsSpace).reverse.dropWhile pyIsSpace).length := hlen.symm
      _ ≤ (l.dropWhile pyIsSpace).reverse.length := hle2
      _ = (l.dropWhile pyIsSpace).length := List.length_reverse _
  have h1len : (l.dropWhile pyIsSpace).length = l.length := le_antisymm hle1 key
  have h1 : l.dropWhile pyIsSpace = l := hs1.eq_of_length h1len
  refine ⟨h1, ?_⟩
  have h2 : (l.dropWhile pyIsSpace).reverse.dropWhile pyIsSpace =
      (l.dropWhile pyIsSpace).reverse :=
    hs2.eq_of_length (by rw [hlen, List.length_reverse, h1len])
  rw [h1] at h2
  exact h2

/-! ## The try block never takes the except branch -/

theorem tryFormatLine_eq (line : String) : tryFormatLine line = some (formatLine line) := by
  unfold tryFormatLine formatLine headlineOf summaryOf urlOf
  rcases hp : lineParts line with _ | ⟨p0, _ | ⟨p1, _ | ⟨p2, rest⟩⟩⟩
  · exact absurd hp (lineParts_ne_nil line)
  · simp [hp]
  · simp [hp]
  · simp [hp]

theorem processLine_eq (line : String) : processLine line = formatLine line := by
  rw [processLine, tryFormatLine_eq]

/-! ## The loop over lines, in map/filter form -/

theorem pyStrip_mk (l : List Char) : pyStrip ⟨l⟩ = ⟨pyStripList l⟩ := rfl

theorem pyLStrip_mk (cs : List Char) (l : List Char) :
    pyLStrip cs ⟨l⟩ = ⟨pyLStripList cs l⟩ := rfl

theorem foldl_skip_blank {α : Type} (f : String → α) (ls : List String) (acc : List α) :
    ls.foldl
        (fun acc raw =>
          let line := pyStrip raw
          if line = "" then acc else acc ++ [f line]) acc
      = acc ++ ((ls.map pyStrip).filter (fun l => l != "")).map f := by
  induction ls generalizing acc with
  | nil => simp
  | cons x xs ih =>
    simp only [List.foldl_cons, List.map_cons, List.filter_cons]
    by_cases hx : pyStrip x = ""
    · simp only [hx]
      rw [ih]
      simp
    · rw [ih]
      simp [hx, List.append_assoc]

theorem htmlLines_eq (t : String) :
    htmlLines t
      = (((pySplit '\n' t).map pyStrip).filter (fun l => l != "")).map processLine := by
  rw [htmlLines, foldl_skip_blank]
  rfl

theorem codeParse_eq (t : String) :
    codeParse t
      = (((pySplit '\n' t).map pyStrip).filter (fun l => l != "")).map
          (fun l => (headlineOf l, summaryOf l, urlOf l)) := by
  rw [codeParse]
  simpa using
    foldl_skip_blank (fun l => (headlineOf l, summaryOf l, urlOf l)) (pySplit '\n' t) []

/-! ## The guarded field accesses in `getD` form -/

theorem summaryOf_eq (l : String) :
    summaryOf l = pyStrip ((lineParts l).getD 1 "") := by
  rw [summaryOf]
  split
  · rfl
  · next h =>
    have hd : (lineParts l).getD 1 "" = "" := by
      rw [List.getD_eq_getElem?_getD, List.getElem?_eq_none (by omega)]
      rfl
    rw [hd]
    rfl

theorem urlOf_eq (l : String) :
    urlOf l = pyStrip ((lineParts l).getD 2 "") := by
  rw [urlOf]
  split
  · rfl
  · next h =>
    have hd : (lineParts l).getD 2 "" = "" := by
      rw [List.getD_eq_getElem?_getD, List.getElem?_eq_none (by omega)]
      rfl
    rw [hd]
    rfl

/-! ## Plain-text extraction in `find?` form -/

theorem extractPlainText_eq_find (bs : List ContentBlock) :
    extractPlainText bs
      = (match bs.find? (fun b => b.type == "text") with
         | some b => pyStrip b.text
         | none => "") := by
  induction bs with
  | nil => rfl
  | cons b rest ih =>
    rw [extractPlainText, List.find?_cons]
    by_cases h : b.type = "text"
    · simp [h]
    · simp only [h, if_false]
      have hb : (b.type == "text") = false := by simp [h]
      rw [hb, ih]

/-! ## Splitting a well-shaped line in three -/

theorem split3 (a b c : List Char) (ha : '|' ∉ a) (hb : '|' ∉ b) (hc : '|' ∉ c) :
    pySplitList '|'
        (('1' :: '.' :: ' ' :: a ++ [' ']) ++
          '|' :: ((' ' :: b ++ [' ']) ++ '|' :: (' ' :: c)))
      = ['1' :: '.' :: ' ' :: a ++ [' '], ' ' :: b ++ [' '], ' ' :: c] := by
  rw [pySplitList_append '|' _ _ (by simp [ha]),
    pySplitList_append '|' _ _ (by simp [hb]),
    pySplitList_of_not_mem '|' _ (by simp [hc])]

theorem strip_headline_field (a : List Char)
    (h2 : a.reverse.dropWhile pyIsSpace = a.reverse) (ha : a ≠ []) :
    pyStripList ('1' :: '.' :: ' ' :: a ++ [' ']) = '1' :: '.' :: ' ' :: a := by
  rw [show ('1' :: '.' :: ' ' :: a ++ [' ']) = ('1' :: '.' :: ' ' :: a) ++ [' '] by simp,
    pyStripList_append_space]
  have hfront : List.dropWhile pyIsSpace ('1' :: '.' :: ' ' :: a) = '1' :: '.' :: ' ' :: a := by
    rw [List.dropWhile_cons, if_neg (by decide)]
  have hrev : ('1' :: '.' :: ' ' :: a).reverse = a.reverse ++ [' ', '.', '1'] := by
    simp
  have hback : List.dropWhile pyIsSpace (a.reverse ++ [' ', '.', '1'])
      = a.reverse ++ [' ', '.', '1'] := by
    rw [List.dropWhile_append, h2]
    have hne : a.reverse ≠ [] := by simpa [List.reverse_eq_nil_iff] using ha
    rw [if_neg (by simpa [List.isEmpty_iff] using hne)]
  rw [pyStripList, hfront, hrev, hback, ← hrev, List.reverse_reverse]

theorem strip_middle_field (b : List Char) :
    pyStripList (' ' :: b ++ [' ']) = pyStripList b := by
  rw [show (' ' :: b ++ [' ']) = ' ' :: (b ++ [' ']) from rfl,
    pyStripList_cons_space, pyStripList_append_space]

theorem lstrip_headline (a : List Char) (h : pyLStripList numberDotSpace a = a) :
    pyLStripList numberDotSpace ('1' :: '.' :: ' ' :: a) = a := by
  unfold pyLStripList at *
  rw [List.dropWhile_cons, if_pos (by decide), List.dropWhile_cons, if_pos (by decide),
    List.dropWhile_cons, if_pos (by decide), h]

theorem data_ne_nil (s : String) (h : s ≠ "") : s.data ≠ [] := by
  intro hd
  exact h (String.ext (by rw [hd]))

/-! ## The claims -/

/-- C7: the `except` fallback at line 84 is unreachable.  For every input
line the `try` body — with each indexed access modelled as fallible —
succeeds, and the produced item is the anchor-branch or bold-branch
rendering of the line's fields. -/
theorem c7_except_branch_unreachable (line : String) :
    tryFormatLine line = some (formatLine line) ∧
      (formatLine line = anchorLi (urlOf line) (headlineOf line) (summaryOf line) ∨
        formatLine line = boldLi (headlineOf line) (summaryOf line)) := by
  refine ⟨tryFormatLine_eq line, ?_⟩
  by_cases h : urlOf line = ""
  · right
    rw [formatLine, if_neg (by simp [h])]
  · left
    rw [formatLine, if_pos h]

/-- C1 counterexample: the malformed line `"hello"` is not appended
verbatim (`rawLi`); the builder renders it through the bold-headline
branch instead. -/
theorem c1_counterexample :
    htmlLines "hello" = [boldLi "hello" ""] ∧ boldLi "hello" "" ≠ rawLi "hello" := by
  constructor
  · decide
  · decide

/-- C1 (amended): for every input line with no pipe separator — in
particular every line not fitting the `"number. Headline | Summary | URL"`
shape — per-line parsing raises no exception, and the builder appends the
bold-headline rendering of the line (numbering stripped, empty summary),
not the raw line of the `except` fallback. -/
theorem c1_amended_no_pipe_renders_bold (line : String) (h : '|' ∉ line.data) :
    tryFormatLine line
        = some (boldLi (pyStrip (pyLStrip numberDotSpace (pyStrip line))) "") ∧
      processLine line
        = boldLi (pyStrip (pyLStrip numberDotSpace (pyStrip line))) "" := by
  have hp : lineParts line = [line] := by
    rw [lineParts, pySplit, pySplitList_of_not_mem '|' line.data h]
    rfl
  have hu : urlOf line = "" := by
    rw [urlOf, hp, if_neg (by simp)]
  have hs : summaryOf line = "" := by
    rw [summaryOf, hp, if_neg (by simp)]
  have hh : headlineOf line = pyStrip (pyLStrip numberDotSpace (pyStrip line)) := by
    rw [headlineOf, hp]
    rfl
  have hf : formatLine line
      = boldLi (pyStrip (pyLStrip numberDotSpace (pyStrip line))) "" := by
    rw [formatLine, hu, if_neg (by simp), hh, hs]
  exact ⟨by rw [tryFormatLine_eq, hf], by rw [processLine_eq, hf]⟩

/-- C1 witness: the amended statement evaluated on the concrete malformed
line `"hello"`. -/
theorem c1_amended_witness :
    tryFormatLine "hello"
        = some (boldLi (pyStrip (pyLStrip numberDotSpace (pyStrip "hello"))) "") ∧
      processLine "hello"
        = boldLi (pyStrip (pyLStrip numberDotSpace (pyStrip "hello"))) "" :=
  c1_amended_no_pipe_renders_bold "hello" (by decide)

/-- C2 counterexample: a six-line model response yields a digest whose
HTML list has six items, so the list built by `fetch_ai_news` is not
bounded by five. -/
theorem c2_counterexample :
    5 < (htmlLines (fetchAiNews [⟨"text", sixItemResponse⟩] "January 1, 2026").1).length := by
  decide

/-- C2 (amended): the HTML list contains exactly one item per line of the
response text that is non-blank after stripping; no five-item bound is
enforced. -/
theorem c2_amended_one_item_per_line (t : String) :
    (htmlLines t).length
      = (((pySplit '\n' t).map pyStrip).filter (fun l => l != "")).length := by
  rw [htmlLines_eq, List.length_map]

/-- C4: when the third pipe-separated field is absent or strips to the
empty string, the line renders through the bold-headline branch — a
`<strong>` wrapper and no anchor. -/
theorem c4_no_url_renders_bold (line : String)
    (h : (lineParts line).length ≤ 2 ∨ pyStrip ((lineParts line).getD 2 "") = "") :
    processLine line = boldLi (headlineOf line) (summaryOf line) := by
  have hu : urlOf line = "" := by
    rw [urlOf]
    rcases h with h | h
    · rw [if_neg (by omega)]
    · split
      · exact h
      · rfl
  rw [processLine_eq, formatLine, hu, if_neg (by simp)]

/-- C4 witness: the two-field line `"1. A | B"` evaluated concretely. -/
theorem c4_witness :
    processLine "1. A | B" = boldLi (headlineOf "1. A | B") (summaryOf "1. A | B") :=
  c4_no_url_renders_bold "1. A | B" (Or.inl (by decide))

/-- C6: the plain text returned by `fetch_ai_news` is the stripped text of
the first content block of type `"text"`; later blocks are ignored and a
response with no text block yields the empty string. -/
theorem c6_plain_text_is_first_text_block (resp : List ContentBlock) (todayStr : String) :
    (fetchAiNews resp todayStr).1
      = (match resp.find? (fun b => b.type == "text") with
         | some b => pyStrip b.text
         | none => "") := by
  rw [fetchAiNews]
  exact extractPlainText_eq_find resp

/-- C8: `send_email` has no exception handler.  Each SMTP step runs at
most once (no retry), the run succeeds exactly when connection, login and
sendmail all succeed, and any failure is the verbatim exception of one of
those steps (no suppression). -/
theorem c8_send_email_propagates (smtp : SmtpEnv) :
    ((sendEmail smtp).2.connectCalls ≤ 1 ∧ (sendEmail smtp).2.loginCalls ≤ 1 ∧
        (sendEmail smtp).2.sendmailCalls ≤ 1) ∧
      ((sendEmail smtp).1 = Except.ok () ↔
        smtp.connectResult = Except.ok () ∧ smtp.loginResult = Except.ok () ∧
          smtp.sendmailResult = Except.ok ()) ∧
      (∀ e, (sendEmail smtp).1 = Except.error e →
        smtp.connectResult = Except.error e ∨ smtp.loginResult = Except.error e ∨
          smtp.sendmailResult = Except.error e) := by
  rcases smtp with ⟨c, l, s⟩
  rcases c with e | u <;> rcases l with e' | u' <;> rcases s with e'' | u'' <;>
    simp [sendEmail]

/-- C8 witness: on an oracle where `server.login` raises `"auth"`, the run
fails with that same exception, coming from one of the three steps. -/
theorem c8_witness :
    smtpLoginFail.connectResult = Except.error "auth" ∨
      smtpLoginFail.loginResult = Except.error "auth" ∨
      smtpLoginFail.sendmailResult = Except.error "auth" :=
  (c8_send_email_propagates smtpLoginFail).2.2 "auth" (by decide)

/-- C10: the run is a function of the four environment variables read at
lines 20-23.  Two environments that agree on `ANTHROPIC_API_KEY`,
`GMAIL_ADDRESS`, `GMAIL_APP_PASSWORD` and `TO_EMAIL` produce identical
runs, whatever else they contain. -/
theorem c10_env_noninterference (env1 env2 : String → Option String)
    (resp : List ContentBlock) (todayStr : String) (smtp : SmtpEnv)
    (h1 : env1 "ANTHROPIC_API_KEY" = env2 "ANTHROPIC_API_KEY")
    (h2 : env1 "GMAIL_ADDRESS" = env2 "GMAIL_ADDRESS")
    (h3 : env1 "GMAIL_APP_PASSWORD" = env2 "GMAIL_APP_PASSWORD")
    (h4 : env1 "TO_EMAIL" = env2 "TO_EMAIL") :
    runMain env1 resp todayStr smtp = runMain env2 resp todayStr smtp := by
  rw [runMain, runMain, h1, h2, h3, h4]

/-- C10 witness: two concrete environments that agree on the four read
variables but disagree on `HOME` produce identical runs. -/
theorem c10_witness :
    envA "HOME" ≠ envB "HOME" ∧
      runMain envA [⟨"text", "1. A | B | C"⟩] "January 1, 2026" smtpOk
        = runMain envB [⟨"text", "1. A | B | C"⟩] "January 1, 2026" smtpOk :=
  ⟨by decide,
    c10_env_noninterference envA envB [⟨"text", "1. A | B | C"⟩] "January 1, 2026" smtpOk
      rfl rfl rfl rfl⟩

/-- C5 counterexample: on the line `"1. abc \t| s | u"` the parser as the
claim words it (headline = first field with leading digits, dots and
spaces stripped, and nothing else) disagrees with the code, which also
strips surrounding whitespace: the code extracts headline `"abc"`, the
claim's wording keeps the trailing tab. -/
theorem c5_counterexample : claimParse tabbedLine ≠ codeParse tabbedLine := by
  decide

/-- C5 (amended): the parser splits the response on newlines, skips lines
blank after stripping, splits each remaining line on `"|"`, and extracts
the triple whose headline is the first field stripped of whitespace, then
of leading digits, dots and spaces, then of whitespace again; the summary
and URL are the stripped second and third fields (empty when absent), and
fields beyond the third are discarded. -/
theorem c5_amended_parse_refines (t : String) : codeParse t = amendedParse t := by
  rw [codeParse_eq, amendedParse]
  refine List.map_congr_left (fun l _ => ?_)
  rw [summaryOf_eq, urlOf_eq]
  rfl

/-- C3: a line `"1. A | B | C"` — numbered headline `A`, summary `B`, and
non-empty URL `C`, the fields pipe-free, whitespace-clean at their ends,
and `A` not starting with a digit, dot or space — renders as the
anchor-wrapped list item with `href` equal to `C`, headline `A` inside the
anchor, and summary `B` in the span. -/
theorem c3_well_formed_line_renders_anchor (A B C : String)
    (hApipe : '|' ∉ A.data) (hBpipe : '|' ∉ B.data) (hCpipe : '|' ∉ C.data)
    (hAstrip : pyStrip A = A) (hBstrip : pyStrip B = B) (hCstrip : pyStrip C = C)
    (hAlstrip : pyLStrip numberDotSpace A = A)
    (hA : A ≠ "") (hC : C ≠ "") :
    processLine ("1. " ++ A ++ " | " ++ B ++ " | " ++ C) = anchorLi C A B := by
  have hAdata : pyStripList A.data = A.data := congrArg String.data hAstrip
  have hBdata : pyStripList B.data = B.data := congrArg String.data hBstrip
  have hCdata : pyStripList C.data = C.data := congrArg String.data hCstrip
  obtain ⟨hA1, hA2⟩ := of_pyStripList_eq_self A.data hAdata
  have hAne : A.data ≠ [] := data_ne_nil A hA
  have d1 : ("1. " : String).data = ['1', '.', ' '] := rfl
  have d2 : (" | " : String).data = [' ', '|', ' '] := rfl
  have hdata : ("1. " ++ A ++ " | " ++ B ++ " | " ++ C).data
      = ('1' :: '.' :: ' ' :: A.data ++ [' ']) ++
          '|' :: ((' ' :: B.data ++ [' ']) ++ '|' :: (' ' :: C.data)) := by
    simp only [String.data_append, d1, d2]
    simp [List.append_assoc]
  have hsplit : lineParts ("1. " ++ A ++ " | " ++ B ++ " | " ++ C)
      = [⟨'1' :: '.' :: ' ' :: A.data ++ [' ']⟩, ⟨' ' :: B.data ++ [' ']⟩,
          ⟨' ' :: C.data⟩] := by
    rw [lineParts, pySplit, hdata, split3 A.data B.data C.data hApipe hBpipe hCpipe]
    rfl
  have hhead : headlineOf ("1. " ++ A ++ " | " ++ B ++ " | " ++ C) = A := by
    rw [headlineOf, hsplit, List.headD_cons]
    show (⟨pyStripList (pyLStripList numberDotSpace
        (pyStripList ('1' :: '.' :: ' ' :: A.data ++ [' '])))⟩ : String) = A
    rw [strip_headline_field A.data hA2 hAne,
      lstrip_headline A.data (congrArg String.data hAlstrip), hAdata]
  have hsum : summaryOf ("1. " ++ A ++ " | " ++ B ++ " | " ++ C) = B := by
    rw [summaryOf_eq, hsplit]
    simp only [List.getD_cons_succ, List.getD_cons_zero]
    show (⟨pyStripList (' ' :: B.data ++ [' '])⟩ : String) = B
    rw [strip_middle_field B.data, hBdata]
  have hurl : urlOf ("1. " ++ A ++ " | " ++ B ++ " | " ++ C) = C := by
    rw [urlOf_eq, hsplit]
    simp only [List.getD_cons_succ, List.getD_cons_zero]
    show (⟨pyStripList (' ' :: C.data)⟩ : String) = C
    rw [pyStripList_cons_space, hCdata]
  rw [processLine_eq, formatLine, hurl, hhead, hsum, if_pos hC]

/-- C3 witness: a concrete well-formed line evaluated through the
formatter. -/
theorem c3_witness :
    processLine ("1. " ++ "OpenAI ships" ++ " | " ++ "A model" ++ " | " ++ "https:u")
      = anchorLi "https:u" "OpenAI ships" "A model" :=
  c3_well_formed_line_renders_anchor "OpenAI ships" "A model" "https:u"
    (by decide) (by decide) (by decide) (by decide) (by decide) (by decide)
    (by decide) (by decide) (by decide)

/-- C9: the renderer escapes nothing — whichever branch runs, the
headline, summary and (when present) URL extracted from the response
occur character-for-character inside the produced HTML list item. -/
theorem c9_fields_embedded_unescaped (line : String) :
    strContains (processLine line) (headlineOf line) ∧
      strContains (processLine line) (summaryOf line) ∧
      (urlOf line ≠ "" → strContains (processLine line) (urlOf line)) := by
  rw [processLine_eq, formatLine]
  by_cases h : urlOf line = ""
  · rw [if_neg (by simp [h])]
    refine ⟨⟨"<li style=\"margin-bottom:16px;\"><strong>",
        "</strong><br><span style=\"color:#555;font-size:14px;\">" ++
          (summaryOf line ++ "</span></li>"), ?_⟩,
      ⟨"<li style=\"margin-bottom:16px;\"><strong>" ++
          (headlineOf line ++ "</strong><br><span style=\"color:#555;font-size:14px;\">"),
        "</span></li>", ?_⟩,
      fun hne => absurd h hne⟩
    · simp [boldLi, String.append_assoc]
    · simp [boldLi, String.append_assoc]
  · rw [if_pos h]
    refine ⟨⟨"<li style=\"margin-bottom:16px;\"><a href=\"" ++ (urlOf line ++
          "\" style=\"font-size:16px;font-weight:bold;color:#1a0dab;text-decoration:none;\">"),
        "</a><br><span style=\"color:#555;font-size:14px;\">" ++
          (summaryOf line ++ "</span></li>"), ?_⟩,
      ⟨"<li style=\"margin-bottom:16px;\"><a href=\"" ++ (urlOf line ++
          ("\" style=\"font-size:16px;font-weight:bold;color:#1a0dab;text-decoration:none;\">" ++
            (headlineOf line ++ "</a><br><span style=\"color:#555;font-size:14px;\">"))),
        "</span></li>", ?_⟩,
      fun _ => ⟨"<li style=\"margin-bottom:16px;\"><a href=\"",
        "\" style=\"font-size:16px;font-weight:bold;color:#1a0dab;text-decoration:none;\">" ++
          (headlineOf line ++ ("</a><br><span style=\"color:#555;font-size:14px;\">" ++
            (summaryOf line ++ "</span></li>"))), ?_⟩⟩
    · simp [anchorLi, String.append_assoc]
    · simp [anchorLi, String.append_assoc]
    · simp [anchorLi, String.append_assoc]

/-- C9 witness: the URL of a concrete parsed line occurs verbatim in the
rendered item. -/
theorem c9_witness :
    strContains (processLine "1. N | S | http:u") (urlOf "1. N | S | http:u") :=
  (c9_fields_embedded_unescaped "1. N | S | http:u").2.2 (by decide)

end AiNewsAgent
